import Mathlib

set_option maxRecDepth 100000

/-!
Shallow embedding of the Blockly build script
`scripts/gulpfiles/build_tasks.js`, covering the chunk graph, the
universal-module-definition wrapper synthesizer (`chunkWrapper`), the
chunk-option manifest builder (`getChunkOptions`), the Apache-license
stripping transform (`stripApacheLicense`), the stale-artifact cleanup in
`buildAdvancedCompilationTest`, and the `cleanBuildDir` safety check.
External configuration values (glob resolution, the configured build
directory, the outcome of a filesystem unlink) are passed as explicit
parameters, since in the script they come from the environment.
-/

/-- Value of the constant `COMPILED_SUFFIX` in build_tasks.js. -/
def COMPILED_SUFFIX : String := "_compressed"

/-- Value of the constant `NAMESPACE_VARIABLE` in build_tasks.js. -/
def NAMESPACE_VARIABLE : String := "$"

/-- Value of the constant `NAMESPACE_PROPERTY` in build_tasks.js. -/
def NAMESPACE_PROPERTY : String := "__namespace__"

/-- Posix form of the compiled-source root `TSC_OUTPUT_DIR`.  The value is
documented by the example manifest in the doc comment of `getChunkOptions`
in build_tasks.js, which lists files such as `build/src/core/block.js`. -/
def TSC_OUTPUT_DIR_POSIX : String := "build/src"

/-- Joining of two plain relative posix path segments, modelling the use of
`path.posix.join` in build_tasks.js (no segment used there is empty,
absolute, or needs `.`/`..` normalization). -/
def posixJoin (a b : String) : String := a ++ "/" ++ b

/-- The `files` field of a chunk descriptor: a single glob string or an
array of glob strings, matching the `typeof chunk.files` test in
`getChunkOptions`. -/
inductive FileSpec : Type where
  | single : String → FileSpec
  | multi : List String → FileSpec

/-- One entry of the hand-authored `chunks` configuration array.  The
fields mirror the JavaScript object: `name`, `files`, `entry`,
`scriptExport`, an optional `scriptNamedExports` map (modelled as an
association list in object-key insertion order, which is the order a JS
`for...in` loop visits non-numeric string keys), and `parent` (a reference
to another chunk, or null for the root chunk). -/
inductive Chunk : Type where
  | mk : String → FileSpec → String → String →
         Option (List (String × String)) → Option Chunk → Chunk

/-- Accessor for the `name` field of a chunk. -/
def Chunk.name : Chunk → String
  | Chunk.mk n _ _ _ _ _ => n

/-- Accessor for the `files` field of a chunk. -/
def Chunk.files : Chunk → FileSpec
  | Chunk.mk _ f _ _ _ _ => f

/-- Accessor for the `entry` field of a chunk. -/
def Chunk.entry : Chunk → String
  | Chunk.mk _ _ e _ _ _ => e

/-- Accessor for the `scriptExport` field of a chunk. -/
def Chunk.scriptExport : Chunk → String
  | Chunk.mk _ _ _ s _ _ => s

/-- Accessor for the optional `scriptNamedExports` field of a chunk. -/
def Chunk.scriptNamedExports : Chunk → Option (List (String × String))
  | Chunk.mk _ _ _ _ m _ => m

/-- Accessor for the `parent` field of a chunk. -/
def Chunk.parent : Chunk → Option Chunk
  | Chunk.mk _ _ _ _ _ p => p

/-- Chunk `blockly` from the `chunks` configuration (the root chunk; the
loop after the array literal sets its `parent` to null). -/
def blocklyChunk : Chunk :=
  Chunk.mk ("blockly") (FileSpec.single ("core/**/*.js")) ("core/blockly.js")
    ("Blockly") none none

/-- Chunk `blocks` from the `chunks` configuration. -/
def blocksChunk : Chunk :=
  Chunk.mk ("blocks") (FileSpec.single ("blocks/**/*.js")) ("blocks/blocks.js")
    ("Blockly.libraryBlocks") none (some blocklyChunk)

/-- Chunk `javascript` from the `chunks` configuration. -/
def javascriptChunk : Chunk :=
  Chunk.mk ("javascript")
    (FileSpec.multi [("generators/javascript.js"), ("generators/javascript/**/*.js")])
    ("generators/javascript.js") ("javascript")
    (some [(("Blockly.JavaScript"), ("javascriptGenerator"))])
    (some blocklyChunk)

/-- Chunk `python` from the `chunks` configuration. -/
def pythonChunk : Chunk :=
  Chunk.mk ("python")
    (FileSpec.multi [("generators/python.js"), ("generators/python/**/*.js")])
    ("generators/python.js") ("python")
    (some [(("Blockly.Python"), ("pythonGenerator"))])
    (some blocklyChunk)

/-- Chunk `php` from the `chunks` configuration. -/
def phpChunk : Chunk :=
  Chunk.mk ("php")
    (FileSpec.multi [("generators/php.js"), ("generators/php/**/*.js")])
    ("generators/php.js") ("php")
    (some [(("Blockly.PHP"), ("phpGenerator"))])
    (some blocklyChunk)

/-- Chunk `lua` from the `chunks` configuration. -/
def luaChunk : Chunk :=
  Chunk.mk ("lua")
    (FileSpec.multi [("generators/lua.js"), ("generators/lua/**/*.js")])
    ("generators/lua.js") ("lua")
    (some [(("Blockly.Lua"), ("luaGenerator"))])
    (some blocklyChunk)

/-- Chunk `dart` from the `chunks` configuration. -/
def dartChunk : Chunk :=
  Chunk.mk ("dart")
    (FileSpec.multi [("generators/dart.js"), ("generators/dart/**/*.js")])
    ("generators/dart.js") ("dart")
    (some [(("Blockly.Dart"), ("dartGenerator"))])
    (some blocklyChunk)

/-- The `chunks` configuration array, after the parent-assignment loop. -/
def chunks : List Chunk :=
  [blocklyChunk, blocksChunk, javascriptChunk, pythonChunk, phpChunk,
   luaChunk, dartChunk]

/-- Stripping of a trailing `.js`, modelling `replace(/\.js$/, "")`: when
the last three characters are `.js` they are removed, otherwise the string
is unchanged. -/
def stripJsExt (s : String) : String :=
  if s.data.reverse.take 3 = ['s', 'j', '.'] then
    String.mk ((s.data.reverse.drop 3).reverse)
  else s

/-- Embedding of `modulePath(chunk)`: the Closure-munged name of the module
object of the entrypoint of the chunk, namely `module$` followed by the
joined entry path with the `.js` extension removed and every `/` replaced
by `$` (the `replaceAll` of a single character is a character map). -/
def modulePath (c : Chunk) : String :=
  "module$" ++
    String.mk ((stripJsExt (posixJoin TSC_OUTPUT_DIR_POSIX c.entry)).data.map
      (fun ch => if ch = '/' then '$' else ch))

/-- Hexadecimal digit character for a value below 16 (lower case, as
produced by JSON.stringify for control-character escapes). -/
def hexDigit (n : Nat) : Char :=
  if n < 10 then Char.ofNat (48 + n) else Char.ofNat (87 + n)

/-- Escaping of one character as it appears inside a JSON string literal
produced by `JSON.stringify`. -/
def jsonEscapeChar (c : Char) : String :=
  if c = '"' then "\\\""
  else if c = '\\' then "\\\\"
  else if c = '\x08' then "\\b"
  else if c = '\t' then "\\t"
  else if c = '\n' then "\\n"
  else if c = '\x0c' then "\\f"
  else if c = '\r' then "\\r"
  else if c.val < 32 then
    String.mk ['\\', 'u', '0', '0', hexDigit (c.val.toNat / 16),
               hexDigit (c.val.toNat % 16)]
  else String.mk [c]

/-- Embedding of `JSON.stringify` applied to a string value. -/
def jsonStringify (s : String) : String :=
  "\"" ++ String.join (s.data.map jsonEscapeChar) ++ "\""

/-- Local `amdDepsExpr` of `chunkWrapper`: empty for the root chunk,
otherwise the JSON-quoted filename of the compiled parent artifact. -/
def amdDepsExpr (c : Chunk) : String :=
  match c.parent with
  | some p => jsonStringify ("./" ++ p.name ++ COMPILED_SUFFIX ++ ".js")
  | none => ""

/-- Local `cjsDepsExpr` of `chunkWrapper`: empty for the root chunk,
otherwise a `require` call on the compiled parent artifact. -/
def cjsDepsExpr (c : Chunk) : String :=
  match c.parent with
  | some p => "require(" ++ jsonStringify ("./" ++ p.name ++ COMPILED_SUFFIX ++ ".js") ++ ")"
  | none => ""

/-- Local `scriptDepsExpr` of `chunkWrapper`: empty for the root chunk,
otherwise the global export object of the parent chunk. -/
def scriptDepsExpr (c : Chunk) : String :=
  match c.parent with
  | some p => "root." ++ p.scriptExport
  | none => ""

/-- Local `factoryArgs` of `chunkWrapper`: empty for the root chunk,
otherwise the single parameter `__parent__`. -/
def factoryArgs (c : Chunk) : String :=
  match c.parent with
  | some _ => "__parent__"
  | none => ""

/-- Local `namespaceExpr` of `chunkWrapper`: a fresh object literal for the
root chunk, otherwise the namespace property of the factory argument. -/
def namespaceExpr (c : Chunk) : String :=
  match c.parent with
  | some _ => factoryArgs c ++ "." ++ NAMESPACE_PROPERTY
  | none => "\x7b\x7d"

/-- Local `scriptExportStatements` of `chunkWrapper`: the primary
assignment of the factory result to `root.<scriptExport>`, followed by one
assignment per entry of `scriptNamedExports` (zero iterations when the
field is absent, as a JS `for...in` over `undefined` visits nothing). -/
def scriptExportStatements (c : Chunk) : List String :=
  ("root." ++ c.scriptExport ++ " = factory(" ++ scriptDepsExpr c ++ ");") ::
    (c.scriptNamedExports.getD []).map
      (fun le => "root." ++ le.1 ++ " = root." ++ c.scriptExport ++ "." ++ le.2 ++ ";")

/-- Embedding of `chunkWrapper(chunk)`: the universal-module-definition
wrapper template, with the JS braces and quotes written as escapes. -/
def chunkWrapper (c : Chunk) : String :=
  "// Do not edit this file; automatically generated.\n\n/* eslint-disable */\n;(function(root, factory) \x7b\n  if (typeof define === \x27function\x27 && define.amd) \x7b // AMD\n    define(["
  ++ amdDepsExpr c
  ++ "], factory);\n  \x7d else if (typeof exports === \x27object\x27) \x7b // Node.js\n    module.exports = factory("
  ++ cjsDepsExpr c
  ++ ");\n  \x7d else \x7b // Script\n    "
  ++ String.intercalate ("\n    ") (scriptExportStatements c)
  ++ "\n  \x7d\n\x7d(this, function("
  ++ factoryArgs c
  ++ ") \x7b\nvar "
  ++ NAMESPACE_VARIABLE ++ "=" ++ namespaceExpr c
  ++ ";\n%output%\n"
  ++ modulePath c ++ "." ++ NAMESPACE_PROPERTY ++ "=" ++ NAMESPACE_VARIABLE
  ++ ";\nreturn " ++ modulePath c
  ++ ";\n\x7d));\n"

/-- Normalization of the `files` field performed at the top of the loop in
`getChunkOptions`: a single glob string becomes a one-element array. -/
def chunkGlobs (c : Chunk) : List String :=
  match c.files with
  | FileSpec.single g => [g]
  | FileSpec.multi gs => gs

/-- Resolved file list of one chunk in `getChunkOptions`: every glob is
expanded (by the ambient resolver, standing for `globSync` with
`cwd: TSC_OUTPUT_DIR_POSIX`) and each match is joined onto the
compiled-source root. -/
def chunkFiles (resolve : String → List String) (c : Chunk) : List String :=
  ((chunkGlobs c).flatMap resolve).map (posixJoin TSC_OUTPUT_DIR_POSIX)

/-- Chunk descriptor string pushed onto `chunkOptions`:
`<name>:<fileCount>` with `:<parentName>` appended when a parent exists. -/
def chunkDescriptor (resolve : String → List String) (c : Chunk) : String :=
  c.name ++ ":" ++ toString (chunkFiles resolve c).length ++
    (match c.parent with
     | some p => ":" ++ p.name
     | none => "")

/-- Result record of `getChunkOptions`. -/
structure ChunkOptions : Type where
  chunk : List String
  js : List String
  chunk_wrapper : List String

/-- Embedding of `getChunkOptions()`: the loop over `chunks` accumulates
the descriptor strings and the flat file list, then the wrappers are
computed by a map. -/
def getChunkOptions (resolve : String → List String) (cs : List Chunk) :
    ChunkOptions :=
  let acc := cs.foldl
    (fun acc c =>
      (acc.1 ++ [chunkDescriptor resolve c], acc.2 ++ chunkFiles resolve c))
    (([] : List String), ([] : List String))
  ChunkOptions.mk acc.1 acc.2 (cs.map (fun c => c.name ++ ":" ++ chunkWrapper c))

/-- Matching of a literal sequence of characters at the head of the input,
returning the remainder on success. -/
def matchLit : List Char → List Char → Option (List Char)
  | [], cs => some cs
  | _ :: _, [] => none
  | l :: ls, c :: cs => if c = l then matchLit ls cs else none

/-- Matching of the regex metacharacter `.` (any character except a line
terminator, per JS regex semantics without the dotAll flag). -/
def matchAny : List Char → Option (List Char)
  | [] => none
  | c :: cs =>
    if c = '\n' ∨ c = '\r' ∨ c.val = 0x2028 ∨ c.val = 0x2029 then none
    else some cs

/-- Matching of `\d+` (greedy, one or more ASCII digits).  No backtracking
into the repetition is needed by the license pattern, because the character
required after it is a space, which is not a digit. -/
def matchDigits1 : List Char → Option (List Char)
  | [] => none
  | c :: cs => if c.isDigit then some (cs.dropWhile Char.isDigit) else none

/-- Matching of the owner alternation `(Google LLC|Massachusetts Institute
of Technology)`.  The two branches begin with distinct characters, so
trying them in order without continuation backtracking is faithful. -/
def matchOwner (cs : List Char) : Option (List Char) :=
  match matchLit (("Google LLC").data) cs with
  | some r => some r
  | none => matchLit (("Massachusetts Institute of Technology").data) cs

/-- Matching of the optional line ` \* All rights reserved.` followed by a
newline (the `.` is the regex any-character metacharacter). -/
def allRightsLine (cs : List Char) : Option (List Char) :=
  match matchLit ((" * All rights reserved").data) cs with
  | none => none
  | some r1 =>
    match matchAny r1 with
    | none => none
    | some r2 => matchLit (("\n").data) r2

/-- Matching of the tail of the license pattern,
` \* SPDX-License-Identifier: Apache-2.0` (the `.` before `0` is the regex
any-character metacharacter), a newline, and the closing ` \*\/`. -/
def licenseTail (cs : List Char) : Option (List Char) :=
  match matchLit ((" * SPDX-License-Identifier: Apache-2").data) cs with
  | none => none
  | some r1 =>
    match matchAny r1 with
    | none => none
    | some r2 => matchLit (("0\n */").data) r2

/-- Matching of the whole `licenseRegex` pattern of build_tasks.js at the
head of the input, returning the remainder after the match.  The optional
`All rights reserved` group is greedy: the variant including it is tried
first, and on failure of the rest of the pattern the matcher falls back to
the variant without it, as a backtracking regex engine would. -/
def matchLicense (cs : List Char) : Option (List Char) :=
  match matchLit (("/**\n * @license\n * Copyright ").data) cs with
  | none => none
  | some r1 =>
  match matchDigits1 r1 with
  | none => none
  | some r2 =>
  match matchLit ((" ").data) r2 with
  | none => none
  | some r3 =>
  match matchOwner r3 with
  | none => none
  | some r4 =>
  match matchLit (("\n").data) r4 with
  | none => none
  | some r5 =>
    match allRightsLine r5 with
    | some r6 =>
      match licenseTail r6 with
      | some r7 => some r7
      | none => licenseTail r5
    | none => licenseTail r5

/-- Global left-to-right replacement scan of `replace` with a `g`-flagged
regex: at each position the pattern is tried; a match is replaced by the
four-newline replacement string and scanning resumes after the match.  The
fuel argument, instantiated with the input length, dominates the number of
steps since every step consumes at least one character. -/
def stripGo : Nat → List Char → List Char
  | _, [] => []
  | 0, cs => cs
  | fuel + 1, c :: cs =>
    match matchLicense (c :: cs) with
    | some r => '\n' :: '\n' :: '\n' :: '\n' :: stripGo fuel r
    | none => c :: stripGo fuel cs

/-- Embedding of the transform applied by `stripApacheLicense()`: replace
every occurrence of the license pattern by the string of four newlines. -/
def stripApacheLicense (s : String) : String :=
  String.mk (stripGo s.data.length s.data)

/-- Number of lines a text spans: one more than its newline count. -/
def lineCount (s : String) : Nat :=
  s.data.count '\n' + 1

/-- A Google-owned license header block, as found at the top of the build
script itself (five lines, four newlines). -/
def googleLicenseBlock : String :=
  "/**\n * @license\n * Copyright 2018 Google LLC\n * SPDX-License-Identifier: Apache-2.0\n */"

/-- An MIT-owned license header block including the optional
`All rights reserved.` line (six lines, five newlines). -/
def mitLicenseBlock : String :=
  "/**\n * @license\n * Copyright 2011 Massachusetts Institute of Technology\n * All rights reserved.\n * SPDX-License-Identifier: Apache-2.0\n */"

/-- Outcome classification for a filesystem unlink call, distinguishing
file-not-found from other failures such as permission errors. -/
inductive FsError : Type where
  | enoent : FsError
  | eperm : FsError
  | other : String → FsError

/-- Embedding of the stale-artifact cleanup at the top of
`buildAdvancedCompilationTest`: the `unlinkSync` call is wrapped in a
`try` whose `catch (_e)` block is empty, so every failure outcome is
swallowed and the cleanup step itself always completes normally. -/
def unlinkStaleMain (unlinkResult : Except FsError Unit) : Except FsError Unit :=
  match unlinkResult with
  | Except.ok _ => Except.ok ()
  | Except.error _ => Except.ok ()

/-- Action performed by `cleanBuildDir`: either a rejected promise carrying
a message, or a `rimraf` deletion of the directory. -/
inductive CleanResult : Type where
  | reject : String → CleanResult
  | rimrafDir : String → CleanResult

/-- Embedding of `cleanBuildDir()`, with the configured `BUILD_DIR` passed
as a parameter: the sanity check refuses the two dangerous values before
any filesystem operation. -/
def cleanBuildDir (buildDir : String) : CleanResult :=
  if buildDir = "." ∨ buildDir = "/" then
    CleanResult.reject ("Refusing to rm -rf " ++ buildDir)
  else
    CleanResult.rimrafDir buildDir

/-- Signature of the parent reference actually read by `chunkWrapper`: the
presence of a parent together with the parent fields the wrapper template
consults, namely `parent.name` and `parent.scriptExport`. -/
def parentSig (c : Chunk) : Option (String × String) :=
  c.parent.map (fun p => (p.name, p.scriptExport))

/-- Concrete chunk used in counterexamples: a generator-style chunk whose
parent is the root chunk. -/
def cxChunkA : Chunk :=
  Chunk.mk ("javascript") (FileSpec.single ("generators/javascript.js"))
    ("generators/javascript.js") ("javascript")
    (some [(("Blockly.JavaScript"), ("javascriptGenerator"))]) (some blocklyChunk)

/-- Variant of `cxChunkA` differing only in its `entry` path. -/
def cxChunkB : Chunk :=
  Chunk.mk ("javascript") (FileSpec.single ("generators/javascript.js"))
    ("generators/other.js") ("javascript")
    (some [(("Blockly.JavaScript"), ("javascriptGenerator"))]) (some blocklyChunk)

/-- A root chunk agreeing with `blocklyChunk` on its name but not on its
`scriptExport` binding. -/
def altParent : Chunk :=
  Chunk.mk ("blockly") (FileSpec.single ("core/**/*.js")) ("core/blockly.js")
    ("BlocklyAlt") none none

/-- Variant of `cxChunkA` differing only in the `scriptExport` field of its
parent chunk (the parent name is unchanged). -/
def cxChunkC : Chunk :=
  Chunk.mk ("javascript") (FileSpec.single ("generators/javascript.js"))
    ("generators/javascript.js") ("javascript")
    (some [(("Blockly.JavaScript"), ("javascriptGenerator"))]) (some altParent)

/-- Variant of `cxChunkA` differing only in its `files` globs, used to
witness that the file globs do not influence the wrapper. -/
def cxChunkD : Chunk :=
  Chunk.mk ("javascript") (FileSpec.single ("generators/**"))
    ("generators/javascript.js") ("javascript")
    (some [(("Blockly.JavaScript"), ("javascriptGenerator"))]) (some blocklyChunk)

/-- A glob resolver under which the entry of the root chunk is not among
the files its glob resolves to. -/
def badResolve : String → List String :=
  fun g => if g = "core/**/*.js" then [("core/other.js")] else []

/-- Loop invariant of the `for (const chunk of chunks)` loop in
`getChunkOptions`: folding over the chunk list appends, in declaration
order, one descriptor string per chunk to the first accumulator and the
resolved file list of each chunk to the second. -/
theorem getChunkOptions_loop (resolve : String → List String) (cs : List Chunk) :
    ∀ a b : List String,
      List.foldl
        (fun acc c => (acc.1 ++ [chunkDescriptor resolve c], acc.2 ++ chunkFiles resolve c))
        (a, b) cs
        = (a ++ cs.map (chunkDescriptor resolve), b ++ cs.flatMap (chunkFiles resolve)) := by
  induction cs with
  | nil => intro a b; simp
  | cons c cs ih => intro a b; simp [ih, List.append_assoc]

/-- C1: for every chunk configuration and glob resolution, the manifest
produced by `getChunkOptions` lists one descriptor string per chunk in
declaration order (each recording the file count of that chunk), its flat
`js` list is exactly the concatenation of the per-chunk resolved file
lists in chunk declaration order, and the length of the flat list equals
the sum of the per-chunk file counts recorded in the descriptors. -/
theorem c1_chunk_manifest_invariant (resolve : String → List String) (cs : List Chunk) :
    (getChunkOptions resolve cs).chunk = cs.map (chunkDescriptor resolve)
    ∧ (getChunkOptions resolve cs).js = cs.flatMap (chunkFiles resolve)
    ∧ ((getChunkOptions resolve cs).js).length
        = (cs.map (fun c => (chunkFiles resolve c).length)).sum := by
  have h := getChunkOptions_loop resolve cs [] []
  refine ⟨by simp [getChunkOptions, h], by simp [getChunkOptions, h], ?_⟩
  simp only [getChunkOptions, h]
  simp only [List.nil_append, List.length_flatMap]
  rfl

/-- C2 (evaluation at the failing input): a Google license block spans
five lines and its replacement also spans five lines, but the variant
containing the optional `All rights reserved.` line spans six lines while
`stripApacheLicense` replaces it with the fixed four-newline string, which
spans only five lines — so the output of the transform has one line fewer
than its input, contradicting the line-preservation invariant stated by
the claim and by the comment in the source. -/
theorem c2_license_strip_line_counts :
    lineCount googleLicenseBlock = 5
    ∧ lineCount (stripApacheLicense googleLicenseBlock) = 5
    ∧ lineCount mitLicenseBlock = 6
    ∧ lineCount (stripApacheLicense mitLicenseBlock) = 5 :=
  ⟨rfl, rfl, rfl, rfl⟩

/-- C3 (counterexample): two chunks agreeing on the four claimed inputs
(name, parent name, scriptExport, scriptNamedExports) but differing in
their entry path synthesize different wrappers; and two chunks that
additionally agree on the entry path but whose parents differ in their
scriptExport binding also synthesize different wrappers.  Hence
`chunkWrapper` is not a function of the four claimed inputs alone. -/
theorem c3_wrapper_not_determined_by_claimed_inputs :
    (cxChunkA.name = cxChunkB.name
      ∧ cxChunkA.parent.map Chunk.name = cxChunkB.parent.map Chunk.name
      ∧ cxChunkA.scriptExport = cxChunkB.scriptExport
      ∧ cxChunkA.scriptNamedExports = cxChunkB.scriptNamedExports
      ∧ chunkWrapper cxChunkA ≠ chunkWrapper cxChunkB)
    ∧ (cxChunkA.name = cxChunkC.name
      ∧ cxChunkA.parent.map Chunk.name = cxChunkC.parent.map Chunk.name
      ∧ cxChunkA.scriptExport = cxChunkC.scriptExport
      ∧ cxChunkA.scriptNamedExports = cxChunkC.scriptNamedExports
      ∧ cxChunkA.entry = cxChunkC.entry
      ∧ chunkWrapper cxChunkA ≠ chunkWrapper cxChunkC) := by
  decide

/-- C3 (amended): `chunkWrapper` is a pure function of the chunk entry
path, its scriptExport, its scriptNamedExports map, and the parent
signature (presence of a parent together with the parent name and the
parent scriptExport); in particular the chunk name and its file globs do
not influence the output. -/
theorem c3_wrapper_determinism_amended (c₁ c₂ : Chunk)
    (hentry : c₁.entry = c₂.entry)
    (hexp : c₁.scriptExport = c₂.scriptExport)
    (hnamed : c₁.scriptNamedExports = c₂.scriptNamedExports)
    (hpar : parentSig c₁ = parentSig c₂) :
    chunkWrapper c₁ = chunkWrapper c₂ := by
  have hmp : modulePath c₁ = modulePath c₂ := by rw [modulePath, modulePath, hentry]
  cases h₁ : c₁.parent with
  | none =>
    cases h₂ : c₂.parent with
    | none =>
      simp only [chunkWrapper, amdDepsExpr, cjsDepsExpr, scriptDepsExpr,
        factoryArgs, namespaceExpr, scriptExportStatements, h₁, h₂, hexp, hnamed, hmp]
    | some q => simp [parentSig, h₁, h₂] at hpar
  | some p =>
    cases h₂ : c₂.parent with
    | none => simp [parentSig, h₁, h₂] at hpar
    | some q =>
      simp only [parentSig, h₁, h₂, Option.map_some', Option.some.injEq,
        Prod.mk.injEq] at hpar
      simp only [chunkWrapper, amdDepsExpr, cjsDepsExpr, scriptDepsExpr,
        factoryArgs, namespaceExpr, scriptExportStatements, h₁, h₂, hexp, hnamed,
        hmp, hpar.1, hpar.2]

/-- C3 (witness): the amended determinism theorem applied to the
javascript chunk and a variant differing only in its file globs. -/
theorem c3_wrapper_determinism_witness :
    chunkWrapper javascriptChunk = chunkWrapper cxChunkD :=
  c3_wrapper_determinism_amended javascriptChunk cxChunkD rfl rfl rfl rfl

/-- C4: every synthesized wrapper ends with a factory whose parameter list
is `__parent__` exactly when the chunk has a parent, whose body first
initializes the namespace variable — to a fresh empty object literal when
the chunk has no parent, and to the reserved namespace property of the
`__parent__` argument when it has one — and which, after the compiled
output placeholder and before returning the module object of the entry
point, attaches the namespace variable onto that module object under the
same reserved property name. -/
theorem c4_namespace_init_and_attach (c : Chunk) :
    ∃ pre : String,
      chunkWrapper c =
        pre ++ ("\n  \x7d\n\x7d(this, function("
          ++ (match c.parent with | some _ => "__parent__" | none => "")
          ++ ") \x7b\nvar " ++ NAMESPACE_VARIABLE ++ "="
          ++ (match c.parent with
              | some _ => "__parent__." ++ NAMESPACE_PROPERTY
              | none => "\x7b\x7d")
          ++ ";\n%output%\n"
          ++ modulePath c ++ "." ++ NAMESPACE_PROPERTY ++ "=" ++ NAMESPACE_VARIABLE
          ++ ";\nreturn " ++ modulePath c ++ ";\n\x7d));\n") := by
  refine ⟨"// Do not edit this file; automatically generated.\n\n/* eslint-disable */\n;(function(root, factory) \x7b\n  if (typeof define === \x27function\x27 && define.amd) \x7b // AMD\n    define(["
      ++ amdDepsExpr c
      ++ "], factory);\n  \x7d else if (typeof exports === \x27object\x27) \x7b // Node.js\n    module.exports = factory("
      ++ cjsDepsExpr c
      ++ ");\n  \x7d else \x7b // Script\n    "
      ++ String.intercalate ("\n    ") (scriptExportStatements c), ?_⟩
  cases hp : c.parent with
  | none =>
    simp only [chunkWrapper, namespaceExpr, factoryArgs, hp, String.append_assoc]
  | some p =>
    simp only [chunkWrapper, namespaceExpr, factoryArgs, hp, String.append_assoc]
    rfl

/-- C5: the synthesized wrapper contains an AMD branch whose dependency
list is exactly `amdDepsExpr` and a CommonJS branch whose require
expression is exactly `cjsDepsExpr`; these are the JSON-quoted filename of
the parent compiled artifact `./<parentName>_compressed.js` and a
`require` of it exactly when the chunk has a parent, and both are empty
for the root chunk. -/
theorem c5_parent_dependency_iff (c : Chunk) :
    chunkWrapper c =
      "// Do not edit this file; automatically generated.\n\n/* eslint-disable */\n;(function(root, factory) \x7b\n  if (typeof define === \x27function\x27 && define.amd) \x7b // AMD\n    "
      ++ ("define([" ++ amdDepsExpr c ++ "], factory);")
      ++ "\n  \x7d else if (typeof exports === \x27object\x27) \x7b // Node.js\n    "
      ++ ("module.exports = factory(" ++ cjsDepsExpr c ++ ");")
      ++ ("\n  \x7d else \x7b // Script\n    "
          ++ String.intercalate ("\n    ") (scriptExportStatements c)
          ++ "\n  \x7d\n\x7d(this, function(" ++ factoryArgs c ++ ") \x7b\nvar "
          ++ NAMESPACE_VARIABLE ++ "=" ++ namespaceExpr c ++ ";\n%output%\n"
          ++ modulePath c ++ "." ++ NAMESPACE_PROPERTY ++ "=" ++ NAMESPACE_VARIABLE
          ++ ";\nreturn " ++ modulePath c ++ ";\n\x7d));\n")
    ∧ (match c.parent with
       | some p =>
           amdDepsExpr c = jsonStringify ("./" ++ p.name ++ COMPILED_SUFFIX ++ ".js")
           ∧ cjsDepsExpr c
               = "require(" ++ jsonStringify ("./" ++ p.name ++ COMPILED_SUFFIX ++ ".js") ++ ")"
       | none => amdDepsExpr c = "" ∧ cjsDepsExpr c = "") := by
  constructor
  · simp only [chunkWrapper, String.append_assoc]
    rfl
  · cases hp : c.parent with
    | none => exact ⟨by simp [amdDepsExpr, hp], by simp [cjsDepsExpr, hp]⟩
    | some p => exact ⟨by simp [amdDepsExpr, hp], by simp [cjsDepsExpr, hp]⟩

/-- C6 (evaluation at the failing input): for the javascript chunk the
plain-script branch consists of the statement
`root.javascript = factory(root.Blockly);`, in which the factory
invocation and the assignment to the global binding form one combined
statement, followed by the named-export assignment reading off the
already-assigned export object.  The claim (and the source comment above
the template) instead requires the invocation and the assignment to be
two separate sequenced statements. -/
theorem c6_script_statements_eval :
    scriptExportStatements javascriptChunk
      = [("root.javascript = factory(root.Blockly);"),
         ("root.Blockly.JavaScript = root.javascript.javascriptGenerator;")] :=
  rfl

/-- C7 (counterexample): under `badResolve` the entry of the root chunk is
not contained in its own resolved file set, yet `getChunkOptions` does not
fail: it returns the ordinary manifest for the configuration. -/
theorem c7_missing_entry_no_failure :
    blocklyChunk.entry ∉ (chunkGlobs blocklyChunk).flatMap badResolve
    ∧ (getChunkOptions badResolve [blocklyChunk]).chunk = [("blockly:1")]
    ∧ (getChunkOptions badResolve [blocklyChunk]).js = [("build/src/core/other.js")] := by
  refine ⟨by decide, rfl, rfl⟩

/-- C7 (amended): chunk resolution performs no entry-membership
validation and cannot fail: even when some chunk declares an entry that is
absent from its own glob-resolved file set, `getChunkOptions` succeeds and
produces a manifest with one descriptor and one wrapper per chunk. -/
theorem c7_resolution_total_amended (resolve : String → List String) (cs : List Chunk)
    (_h : ∃ c ∈ cs, c.entry ∉ (chunkGlobs c).flatMap resolve) :
    ((getChunkOptions resolve cs).chunk).length = cs.length
    ∧ ((getChunkOptions resolve cs).chunk_wrapper).length = cs.length := by
  have hl := getChunkOptions_loop resolve cs [] []
  exact ⟨by simp [getChunkOptions, hl], by simp [getChunkOptions]⟩

/-- C7 (witness): the amended theorem applied to the configuration of the
counterexample, whose entry-violation hypothesis is discharged by
evaluation. -/
theorem c7_resolution_total_witness :
    ((getChunkOptions badResolve [blocklyChunk]).chunk).length = 1
    ∧ ((getChunkOptions badResolve [blocklyChunk]).chunk_wrapper).length = 1 :=
  c7_resolution_total_amended badResolve [blocklyChunk]
    ⟨blocklyChunk, List.Mem.head _, by decide⟩

/-- C8: `cleanBuildDir` with a configured build directory equal to `.` or
to `/` returns a rejection carrying the refusal message and performs no
deletion, and with any other configured value it proceeds to delete the
directory via rimraf. -/
theorem c8_clean_refusal :
    cleanBuildDir "." = CleanResult.reject ("Refusing to rm -rf .")
    ∧ cleanBuildDir "/" = CleanResult.reject ("Refusing to rm -rf /")
    ∧ ∀ d : String, d ≠ "." → d ≠ "/" → cleanBuildDir d = CleanResult.rimrafDir d := by
  refine ⟨rfl, rfl, ?_⟩
  intro d h1 h2
  simp [cleanBuildDir, h1, h2]

/-- C8 (witness): the refusal theorem applied to the ordinary value
`build`, which is deleted rather than refused. -/
theorem c8_clean_witness :
    (("build" : String) ≠ ".") ∧ (("build" : String) ≠ "/")
    ∧ cleanBuildDir "build" = CleanResult.rimrafDir "build" :=
  ⟨by decide, by decide, c8_clean_refusal.2.2 "build" (by decide) (by decide)⟩

/-- C9 (counterexample): a permission failure of the unlink call is
swallowed by the empty catch block exactly like a file-not-found failure,
so it is not distinguished from it and not propagated. -/
theorem c9_eperm_swallowed :
    unlinkStaleMain (Except.error FsError.eperm) = Except.ok () :=
  rfl

/-- C9 (amended): the best-effort cleanup of the stale artifact file
ignores every deletion failure, not only file-not-found: the try block
with an empty catch completes normally on every unlink outcome. -/
theorem c9_all_failures_swallowed_amended (r : Except FsError Unit) :
    unlinkStaleMain r = Except.ok () := by
  cases r <;> rfl

/-- C10: for every chunk whose scriptNamedExports field is absent, the
wrapper synthesis is total and its plain-script branch consists of exactly
one statement, the primary scriptExport assignment, since the loop over
the absent map performs zero iterations. -/
theorem c10_absent_named_exports (c : Chunk) (h : c.scriptNamedExports = none) :
    scriptExportStatements c
      = [("root." ++ c.scriptExport ++ " = factory(" ++ scriptDepsExpr c ++ ");")] := by
  simp [scriptExportStatements, h]

/-- C10 (witness): the theorem applied to the root chunk, whose
scriptNamedExports field is absent. -/
theorem c10_absent_named_exports_witness :
    blocklyChunk.scriptNamedExports = none
    ∧ scriptExportStatements blocklyChunk = [("root.Blockly = factory();")] :=
  ⟨rfl, by rw [c10_absent_named_exports blocklyChunk rfl]; rfl⟩
